import Mathlib

/-!
Shallow embedding of `idol51/express-zod-validator` (src/validate.ts and
src/types.ts): an Express middleware factory that validates request body,
query and params with optional Zod schemas, attaches the parsed results to
the request object, and runs a downstream controller; a thrown `ZodError`
is answered with a 400 error envelope, any other thrown value is passed to
`next`.

The middleware's one invocation is modelled as a pure function from the
schema set, the controller, the response-send behaviour and the incoming
request to an observable trace (`RunResult`): every `schema.parse` call,
every write of a `validated*` slot, every controller invocation, every
`res.status(s).json(b)` call, every `next(e)` call, any error escaping the
middleware function, and the request object's final state.
-/

set_option maxHeartbeats 1000000

namespace ExpressZodValidator

/-- A single validation issue as reported by the validation library (zod's
`ZodIssue`); the middleware reads only its human-readable `message`. -/
structure ZodIssue where
  message : String
deriving Repr, DecidableEq

/-- A value thrown by JavaScript code during one request: either a
recognized validation error (zod's `ZodError`, carrying its ordered issue
list, recognized by the middleware's `error instanceof ZodError` test) or
any other thrown value, kept opaque. -/
inductive JsError where
  | zodError (errors : List ZodIssue)
  | other (payload : String)
deriving Repr, DecidableEq

/-- The `error instanceof ZodError` test of the catch block. -/
def JsError.isZodError : JsError → Bool
  | .zodError _ => true
  | .other _ => false

/-- The Express request object, over a value type `V`: the three raw
sections the middleware reads, the three slots it may write
(`validatedData`, `validatedQuery`, `validatedParams`, cf.
`ValidatedRequest` in src/types.ts), and `otherFields` standing for every
other field of the request object. -/
structure Request (V : Type) where
  body : V
  query : V
  params : V
  validatedData : Option V := none
  validatedQuery : Option V := none
  validatedParams : Option V := none
  otherFields : V
deriving Repr, DecidableEq

/-- `ZodSchemaShape` of src/types.ts: up to three optional schemas; a
schema's `parse` either returns the parsed value or throws. -/
structure ZodSchemaShape (V : Type) where
  body : Option (V → Except JsError V) := none
  query : Option (V → Except JsError V) := none
  params : Option (V → Except JsError V) := none

/-- Which of the three schema slots an event in the trace concerns. -/
inductive Slot where
  | body
  | query
  | params
deriving Repr, DecidableEq

/-- The JSON error envelope `{ status: "error", message }` sent on
validation failure. -/
structure ErrorEnvelope where
  status : String
  message : String
deriving Repr, DecidableEq

/-- Observable trace of one invocation of the middleware returned by
`validate`: the `schema.parse` calls with their inputs, the writes to the
`validated*` slots, the controller invocations with their request
argument, the `res.status(s).json(b)` calls, the `next(e)` calls, an error
escaping the middleware function (a rejected promise the middleware does
not handle), and the final state of the request object. -/
structure RunResult (V : Type) where
  parseCalls : List (Slot × V)
  slotWrites : List (Slot × V)
  handlerCalls : List (Request V)
  responseCalls : List (Nat × ErrorEnvelope)
  nextCalls : List JsError
  escaped : Option JsError
  finalReq : Request V
deriving Repr, DecidableEq

variable {V : Type}

/-- The envelope built in the catch block from a ZodError:
`{ status: "error", message: error.errors.map(e => e.message).join(", ") }`. -/
def mkEnvelope (errs : List ZodIssue) : ErrorEnvelope :=
  { status := "error",
    message := String.intercalate ", " (errs.map ZodIssue.message) }

/-- The catch block of src/validate.ts: a `ZodError` is answered with
`res.status(400).json(mkEnvelope ...)`; any other error is passed to
`next`. The catch block itself is unguarded, so an error thrown by the
response send (`resSend`) escapes the middleware function. -/
def runCatch (resSend : Nat → ErrorEnvelope → Option JsError) (r : Request V)
    (parses writes : List (Slot × V)) (calls : List (Request V))
    (e : JsError) : RunResult V :=
  match e with
  | .zodError errs =>
      { parseCalls := parses, slotWrites := writes, handlerCalls := calls,
        responseCalls := [(400, mkEnvelope errs)], nextCalls := [],
        escaped := resSend 400 (mkEnvelope errs), finalReq := r }
  | .other p =>
      { parseCalls := parses, slotWrites := writes, handlerCalls := calls,
        responseCalls := [], nextCalls := [JsError.other p],
        escaped := none, finalReq := r }

/-- The `await controller(req, res, next)` call at the end of the try
block: on normal completion the middleware is done; a thrown error goes to
the catch block. -/
def runController (resSend : Nat → ErrorEnvelope → Option JsError)
    (controller : Request V → Except JsError Unit) (r : Request V)
    (parses writes : List (Slot × V)) : RunResult V :=
  match controller r with
  | .ok _ =>
      { parseCalls := parses, slotWrites := writes, handlerCalls := [r],
        responseCalls := [], nextCalls := [], escaped := none,
        finalReq := r }
  | .error e => runCatch resSend r parses writes [r] e

/-- Step 3 of the try block: `if (schemas.params) { req.validatedParams =
schemas.params.parse(req.params) }`, then the controller call. -/
def runParamsStep (schemas : ZodSchemaShape V)
    (controller : Request V → Except JsError Unit)
    (resSend : Nat → ErrorEnvelope → Option JsError) (r : Request V)
    (parses writes : List (Slot × V)) : RunResult V :=
  match schemas.params with
  | none => runController resSend controller r parses writes
  | some s =>
      match s r.params with
      | .ok v =>
          runController resSend controller
            { r with validatedParams := some v }
            (parses ++ [(Slot.params, r.params)])
            (writes ++ [(Slot.params, v)])
      | .error e =>
          runCatch resSend r (parses ++ [(Slot.params, r.params)]) writes
            [] e

/-- Step 2 of the try block: `if (schemas.query) { req.validatedQuery =
schemas.query.parse(req.query) }`, then step 3. -/
def runQueryStep (schemas : ZodSchemaShape V)
    (controller : Request V → Except JsError Unit)
    (resSend : Nat → ErrorEnvelope → Option JsError) (r : Request V)
    (parses writes : List (Slot × V)) : RunResult V :=
  match schemas.query with
  | none => runParamsStep schemas controller resSend r parses writes
  | some s =>
      match s r.query with
      | .ok v =>
          runParamsStep schemas controller resSend
            { r with validatedQuery := some v }
            (parses ++ [(Slot.query, r.query)])
            (writes ++ [(Slot.query, v)])
      | .error e =>
          runCatch resSend r (parses ++ [(Slot.query, r.query)]) writes
            [] e

/-- One invocation of the middleware produced by
`validate(schemas, controller)` (src/validate.ts): parse body, query and
params in that order inside one try block, attaching each parsed result to
the request, then run the controller; any error thrown anywhere in the try
block is handled by the catch block (`runCatch`). -/
def validate (schemas : ZodSchemaShape V)
    (controller : Request V → Except JsError Unit)
    (resSend : Nat → ErrorEnvelope → Option JsError)
    (req : Request V) : RunResult V :=
  match schemas.body with
  | none => runQueryStep schemas controller resSend req [] []
  | some s =>
      match s req.body with
      | .ok v =>
          runQueryStep schemas controller resSend
            { req with validatedData := some v }
            [(Slot.body, req.body)] [(Slot.body, v)]
      | .error e => runCatch resSend req [(Slot.body, req.body)] [] [] e

/-- Outcome of one optional schema on its request section: `none` when the
schema is absent or its parse succeeds, otherwise the thrown error. -/
def stepErr (schema : Option (V → Except JsError V)) (v : V) :
    Option JsError :=
  match schema with
  | none => none
  | some s =>
      match s v with
      | .ok _ => none
      | .error e => some e

/-- True iff the optional schema is absent or parses its input. -/
def schemaOk (schema : Option (V → Except JsError V)) (v : V) : Bool :=
  (stepErr schema v).isNone

/-- Parsed value of one optional schema, when present and successful. -/
def parsedValue (schema : Option (V → Except JsError V)) (v : V) :
    Option V :=
  match schema with
  | none => none
  | some s =>
      match s v with
      | .ok w => some w
      | .error _ => none

/-- Every present schema parses its section of the request. -/
def allOk (schemas : ZodSchemaShape V) (req : Request V) : Bool :=
  schemaOk schemas.body req.body && schemaOk schemas.query req.query &&
    schemaOk schemas.params req.params

/-- The error thrown by the first failing present schema, in evaluation
order body, query, params; `none` when every present schema parses. -/
def firstFailure (schemas : ZodSchemaShape V) (req : Request V) :
    Option JsError :=
  match stepErr schemas.body req.body with
  | some e => some e
  | none =>
      match stepErr schemas.query req.query with
      | some e => some e
      | none => stepErr schemas.params req.params

/-- The slot of the first failing present schema, if any. -/
def firstFailSlot (schemas : ZodSchemaShape V) (req : Request V) :
    Option Slot :=
  match stepErr schemas.body req.body with
  | some _ => some Slot.body
  | none =>
      match stepErr schemas.query req.query with
      | some _ => some Slot.query
      | none =>
          match stepErr schemas.params req.params with
          | some _ => some Slot.params
          | none => none

/-- One request slot after augmentation: the schema's parsed output when
present and successful, otherwise the slot's previous content. -/
def augmentSlot (schema : Option (V → Except JsError V)) (v : V)
    (old : Option V) : Option V :=
  match parsedValue schema v with
  | some w => some w
  | none => old

/-- The request as the controller receives it when every present schema
parsed: each present schema's slot holds that schema's parsed output and
everything else is unchanged. -/
def augmentedReq (schemas : ZodSchemaShape V) (req : Request V) :
    Request V :=
  { req with
    validatedData := augmentSlot schemas.body req.body req.validatedData,
    validatedQuery :=
      augmentSlot schemas.query req.query req.validatedQuery,
    validatedParams :=
      augmentSlot schemas.params req.params req.validatedParams }

/-- The error, if any, that the try block throws during one invocation:
the first failing schema's error, or else the controller's error on the
augmented request. -/
def raisedError (schemas : ZodSchemaShape V)
    (controller : Request V → Except JsError Unit) (req : Request V) :
    Option JsError :=
  match firstFailure schemas req with
  | some e => some e
  | none =>
      match controller (augmentedReq schemas req) with
      | .ok _ => none
      | .error e => some e

/-- The parse call a present schema contributes to the trace. -/
def presentParse (slot : Slot) (schema : Option (V → Except JsError V))
    (v : V) : List (Slot × V) :=
  match schema with
  | none => []
  | some _ => [(slot, v)]

/-- Concrete request used by the witnesses below. -/
def exReq : Request Nat :=
  { body := 1, query := 2, params := 3, otherFields := 7 }

/-- Concrete schema that parses every input, adding ten. -/
def okSchema : Nat → Except JsError Nat := fun n => Except.ok (n + 10)

/-- Concrete schema that always throws a ZodError with two issues. -/
def failSchema : Nat → Except JsError Nat :=
  fun _ => Except.error (JsError.zodError [⟨"bad value"⟩, ⟨"oops"⟩])

/-- Concrete schema that throws a non-validation error. -/
def throwSchema : Nat → Except JsError Nat :=
  fun _ => Except.error (JsError.other "boom")

/-- Concrete controller that completes normally. -/
def okController : Request Nat → Except JsError Unit :=
  fun _ => Except.ok ()

/-- Concrete controller that throws a ZodError. -/
def zodThrowController : Request Nat → Except JsError Unit :=
  fun _ => Except.error (JsError.zodError [⟨"from controller"⟩])

/-- Concrete controller that throws a non-validation error. -/
def otherThrowController : Request Nat → Except JsError Unit :=
  fun _ => Except.error (JsError.other "ctrl boom")

/-- Concrete response send that never throws. -/
def resOk : Nat → ErrorEnvelope → Option JsError := fun _ _ => none

/-- Concrete response send that itself throws a non-validation error. -/
def resThrow : Nat → ErrorEnvelope → Option JsError :=
  fun _ _ => some (JsError.other "res boom")

/-- Schema set with only a passing body schema. -/
def bodySchemas : ZodSchemaShape Nat := { body := some okSchema }

/-- Schema set with only a ZodError-throwing body schema. -/
def bodyFailSchemas : ZodSchemaShape Nat := { body := some failSchema }

/-- Schema set whose body schema throws a non-validation error. -/
def bodyThrowSchemas : ZodSchemaShape Nat := { body := some throwSchema }

/-- Schema set with a passing body schema and a failing query schema. -/
def bodyOkQueryFailSchemas : ZodSchemaShape Nat :=
  { body := some okSchema, query := some failSchema }

/-- Schema set with passing body and query schemas. -/
def bodyQuerySchemas : ZodSchemaShape Nat :=
  { body := some okSchema, query := some okSchema }

/-- The empty schema set. -/
def emptySchemas : ZodSchemaShape Nat := {}

/-- C1: for every schema set and request, the controller is invoked (and
then exactly once) iff every present schema parses its section; at most
one of the 400-response path and the `next` path runs; and when nothing is
thrown, neither runs. -/
theorem validate_handler_iff_allOk (schemas : ZodSchemaShape V)
    (controller : Request V → Except JsError Unit)
    (resSend : Nat → ErrorEnvelope → Option JsError) (req : Request V) :
    ((validate schemas controller resSend req).handlerCalls ≠ [] ↔
      allOk schemas req = true)
    ∧ (validate schemas controller resSend req).handlerCalls.length ≤ 1
    ∧ (validate schemas controller resSend req).responseCalls.length +
        (validate schemas controller resSend req).nextCalls.length ≤ 1
    ∧ (raisedError schemas controller req = none →
        (validate schemas controller resSend req).responseCalls = [] ∧
        (validate schemas controller resSend req).nextCalls = []) := by
  obtain ⟨b, q, p⟩ := schemas
  simp only [validate, runQueryStep, runParamsStep, runController, runCatch,
    allOk, schemaOk, stepErr, raisedError, firstFailure, augmentedReq,
    augmentSlot, parsedValue]
  repeat' split
  all_goals simp_all

/-- Witness for C1: with the empty schema set and a normally completing
controller nothing is thrown and neither error path runs. -/
theorem validate_handler_iff_allOk_witness :
    raisedError emptySchemas okController exReq = none ∧
    (validate emptySchemas okController resOk exReq).responseCalls = [] ∧
    (validate emptySchemas okController resOk exReq).nextCalls = [] :=
  ⟨by rfl,
    (validate_handler_iff_allOk emptySchemas okController resOk
      exReq).2.2.2 (by rfl)⟩

/-- C3: when the first failing present schema throws a ZodError, the
dispatcher answers with exactly `res.status(400)` and body
`{ status: "error", message }`, where `message` joins that error's issue
messages with ", " in their reported order; the controller is never
invoked and `next` is not called. -/
theorem validation_failure_400 (schemas : ZodSchemaShape V)
    (controller : Request V → Except JsError Unit)
    (resSend : Nat → ErrorEnvelope → Option JsError) (req : Request V)
    (errs : List ZodIssue)
    (h : firstFailure schemas req = some (JsError.zodError errs)) :
    (validate schemas controller resSend req).responseCalls =
      [(400, { status := "error",
               message :=
                 String.intercalate ", " (errs.map ZodIssue.message) })] ∧
    (validate schemas controller resSend req).handlerCalls = [] ∧
    (validate schemas controller resSend req).nextCalls = [] := by
  obtain ⟨b, q, p⟩ := schemas
  simp only [validate, runQueryStep, runParamsStep, runController, runCatch,
    mkEnvelope, firstFailure, stepErr] at *
  repeat' split
  all_goals simp_all

/-- Witness for C3: a failing body schema with issues "bad value" and
"oops" yields exactly the 400 envelope with message "bad value, oops". -/
theorem validation_failure_400_witness :
    firstFailure bodyFailSchemas exReq =
      some (JsError.zodError [⟨"bad value"⟩, ⟨"oops"⟩]) ∧
    (validate bodyFailSchemas okController resOk exReq).responseCalls =
      [(400, { status := "error", message := "bad value, oops" })] ∧
    (validate bodyFailSchemas okController resOk exReq).handlerCalls = [] ∧
    (validate bodyFailSchemas okController resOk exReq).nextCalls = [] := by
  refine ⟨by rfl, ?_⟩
  exact validation_failure_400 bodyFailSchemas okController resOk exReq
    [⟨"bad value"⟩, ⟨"oops"⟩] (by rfl)

/-- C4: the present schemas are parsed in the fixed order body, query,
params, and the first failure aborts the rest: a later schema is never
parsed, a later slot is never written, and only the first failure's
messages are reported. -/
theorem first_failure_aborts (schemas : ZodSchemaShape V)
    (controller : Request V → Except JsError Unit)
    (resSend : Nat → ErrorEnvelope → Option JsError) (req : Request V) :
    (firstFailSlot schemas req = some Slot.body →
      (validate schemas controller resSend req).parseCalls =
        [(Slot.body, req.body)] ∧
      (validate schemas controller resSend req).slotWrites = [] ∧
      (validate schemas controller resSend req).finalReq = req)
    ∧ (firstFailSlot schemas req = some Slot.query →
      (validate schemas controller resSend req).parseCalls =
        presentParse Slot.body schemas.body req.body ++
          [(Slot.query, req.query)] ∧
      (∀ v : V, (Slot.query, v) ∉
        (validate schemas controller resSend req).slotWrites) ∧
      (∀ v : V, (Slot.params, v) ∉
        (validate schemas controller resSend req).slotWrites) ∧
      (validate schemas controller resSend req).finalReq.validatedQuery =
        req.validatedQuery ∧
      (validate schemas controller resSend req).finalReq.validatedParams =
        req.validatedParams)
    ∧ (firstFailSlot schemas req = some Slot.params →
      (validate schemas controller resSend req).parseCalls =
        presentParse Slot.body schemas.body req.body ++
          presentParse Slot.query schemas.query req.query ++
          [(Slot.params, req.params)] ∧
      (∀ v : V, (Slot.params, v) ∉
        (validate schemas controller resSend req).slotWrites) ∧
      (validate schemas controller resSend req).finalReq.validatedParams =
        req.validatedParams)
    ∧ (∀ errs, firstFailure schemas req = some (JsError.zodError errs) →
      (validate schemas controller resSend req).responseCalls =
        [(400, mkEnvelope errs)]) := by
  obtain ⟨b, q, p⟩ := schemas
  simp only [validate, runQueryStep, runParamsStep, runController, runCatch,
    firstFailSlot, firstFailure, stepErr, presentParse] at *
  repeat' split
  all_goals simp_all
  all_goals (intro errs herrs)
  all_goals subst_vars
  all_goals simp_all

/-- Witness for C4: with a passing body schema and a failing query schema,
exactly body then query are parsed, the query and params slots are never
written, and only the query failure is reported. -/
theorem first_failure_aborts_witness :
    firstFailSlot bodyOkQueryFailSchemas exReq = some Slot.query ∧
    (validate bodyOkQueryFailSchemas okController resOk exReq).parseCalls =
      [(Slot.body, 1), (Slot.query, 2)] ∧
    (∀ v : Nat, (Slot.query, v) ∉
      (validate bodyOkQueryFailSchemas okController resOk
        exReq).slotWrites) ∧
    (validate bodyOkQueryFailSchemas okController resOk
      exReq).finalReq.validatedParams = none := by
  have h := (first_failure_aborts bodyOkQueryFailSchemas okController resOk
    exReq).2.1 (by rfl)
  exact ⟨by rfl, h.1, h.2.1, h.2.2.2.2⟩

/-- C2 counterexample: with no schemas at all, a ZodError thrown by the
controller is answered by the dispatcher itself with the 400 envelope and
is not passed to `next` — the opposite of what the claim requires. -/
theorem controller_zodError_gets_400 :
    (validate emptySchemas zodThrowController resOk exReq).responseCalls =
      [(400, { status := "error", message := "from controller" })] ∧
    (validate emptySchemas zodThrowController resOk exReq).nextCalls =
      [] :=
  ⟨rfl, rfl⟩

/-- C2 amended: after all present schemas validated, an error raised by
the controller is passed unchanged to `next` when it is not a ZodError and
no response is made; but a ZodError raised by the controller is treated
like a validation failure and answered with the 400 envelope. -/
theorem controller_error_dispatch (schemas : ZodSchemaShape V)
    (controller : Request V → Except JsError Unit)
    (resSend : Nat → ErrorEnvelope → Option JsError) (req : Request V)
    (e : JsError) (hall : allOk schemas req = true)
    (hc : controller (augmentedReq schemas req) = Except.error e) :
    ((e.isZodError = false →
      (validate schemas controller resSend req).nextCalls = [e] ∧
      (validate schemas controller resSend req).responseCalls = []) ∧
    (∀ errs, e = JsError.zodError errs →
      (validate schemas controller resSend req).responseCalls =
        [(400, mkEnvelope errs)] ∧
      (validate schemas controller resSend req).nextCalls = [])) := by
  obtain ⟨b, q, p⟩ := schemas
  simp only [validate, runQueryStep, runParamsStep, runController, runCatch,
    allOk, schemaOk, stepErr, augmentedReq, augmentSlot, parsedValue,
    JsError.isZodError] at *
  repeat' split
  all_goals simp_all

/-- Witness for C2's amended theorem: a passing body schema and a
controller throwing a non-ZodError give exactly one `next` call with that
same error and no response. -/
theorem controller_error_dispatch_witness :
    allOk bodySchemas exReq = true ∧
    (validate bodySchemas otherThrowController resOk exReq).nextCalls =
      [JsError.other "ctrl boom"] ∧
    (validate bodySchemas otherThrowController resOk
      exReq).responseCalls = [] := by
  have h := (controller_error_dispatch bodySchemas otherThrowController
    resOk exReq (JsError.other "ctrl boom") (by rfl) (by rfl)).1 (by rfl)
  exact ⟨by rfl, h.1, h.2⟩

/-- C5 counterexample: when the body schema fails validation and the
response send itself throws, the thrown error escapes the middleware and
is not passed to `next` — the claim requires it on the generic error
path. -/
theorem response_error_not_forwarded :
    (validate bodyFailSchemas okController resThrow exReq).nextCalls =
      [] ∧
    (validate bodyFailSchemas okController resThrow exReq).escaped =
      some (JsError.other "res boom") :=
  ⟨rfl, rfl⟩

/-- C5 amended: a non-validation error thrown by a schema during the
validation steps is passed unchanged to `next` and no response is
attempted; but an error thrown while sending the 400 validation-failure
response is not caught: it escapes the middleware and `next` is never
called. -/
theorem unrelated_error_dispatch (schemas : ZodSchemaShape V)
    (controller : Request V → Except JsError Unit)
    (resSend : Nat → ErrorEnvelope → Option JsError) (req : Request V) :
    ((∀ p, firstFailure schemas req = some (JsError.other p) →
      (validate schemas controller resSend req).nextCalls =
        [JsError.other p] ∧
      (validate schemas controller resSend req).responseCalls = [] ∧
      (validate schemas controller resSend req).escaped = none) ∧
    (∀ errs e, firstFailure schemas req = some (JsError.zodError errs) →
      resSend 400 (mkEnvelope errs) = some e →
      (validate schemas controller resSend req).escaped = some e ∧
      (validate schemas controller resSend req).nextCalls = [])) := by
  obtain ⟨b, q, p⟩ := schemas
  simp only [validate, runQueryStep, runParamsStep, runController, runCatch,
    firstFailure, stepErr] at *
  repeat' split
  all_goals simp_all
  all_goals intros
  all_goals subst_vars
  all_goals simp_all

/-- Witness for C5's amended theorem: a body schema throwing a
non-validation error gives exactly one `next` call with that error, no
response attempt and nothing escaping. -/
theorem unrelated_error_dispatch_witness :
    (validate bodyThrowSchemas okController resOk exReq).nextCalls =
      [JsError.other "boom"] ∧
    (validate bodyThrowSchemas okController resOk exReq).responseCalls =
      [] ∧
    (validate bodyThrowSchemas okController resOk exReq).escaped =
      none :=
  (unrelated_error_dispatch bodyThrowSchemas okController resOk exReq).1
    "boom" (by rfl)

/-- C6: the catch block decides solely on the thrown error's kind: any
non-ZodError raised by a schema or by the controller is passed to `next`
unchanged (one call, with the very same error) and no response is made; a
ZodError takes the 400 path and `next` is never called; when nothing is
thrown neither path runs. -/
theorem error_kind_dispatch (schemas : ZodSchemaShape V)
    (controller : Request V → Except JsError Unit)
    (resSend : Nat → ErrorEnvelope → Option JsError) (req : Request V) :
    ((∀ e, raisedError schemas controller req = some e →
      (e.isZodError = false →
        (validate schemas controller resSend req).nextCalls = [e] ∧
        (validate schemas controller resSend req).responseCalls = []) ∧
      (e.isZodError = true →
        (validate schemas controller resSend req).nextCalls = [] ∧
        (validate schemas controller resSend req).responseCalls ≠ [])) ∧
    (raisedError schemas controller req = none →
      (validate schemas controller resSend req).nextCalls = [] ∧
      (validate schemas controller resSend req).responseCalls = [])) := by
  obtain ⟨b, q, p⟩ := schemas
  simp only [validate, runQueryStep, runParamsStep, runController, runCatch,
    raisedError, firstFailure, stepErr, augmentedReq, augmentSlot,
    parsedValue, JsError.isZodError] at *
  repeat' split
  all_goals simp_all
  all_goals subst_vars
  all_goals simp_all

/-- Witness for C6: a body schema throwing the non-validation error
"boom" leads to exactly one `next` call carrying that same error and no
response. -/
theorem error_kind_dispatch_witness :
    raisedError bodyThrowSchemas okController exReq =
      some (JsError.other "boom") ∧
    (validate bodyThrowSchemas okController resOk exReq).nextCalls =
      [JsError.other "boom"] ∧
    (validate bodyThrowSchemas okController resOk exReq).responseCalls =
      [] := by
  have h := ((error_kind_dispatch bodyThrowSchemas okController resOk
    exReq).1 (JsError.other "boom") (by rfl)).1 (by rfl)
  exact ⟨by rfl, h.1, h.2⟩

/-- C7: when every present schema parses, the controller is invoked
exactly once, with the final request, which is the original request with
each present schema's slot holding exactly that schema's parsed output. -/
theorem success_invokes_handler_once (schemas : ZodSchemaShape V)
    (controller : Request V → Except JsError Unit)
    (resSend : Nat → ErrorEnvelope → Option JsError) (req : Request V)
    (hall : allOk schemas req = true) :
    (validate schemas controller resSend req).handlerCalls =
      [(validate schemas controller resSend req).finalReq] ∧
    (validate schemas controller resSend req).finalReq =
      augmentedReq schemas req ∧
    (∀ s v, schemas.body = some s → s req.body = Except.ok v →
      (validate schemas controller resSend req).finalReq.validatedData =
        some v) ∧
    (∀ s v, schemas.query = some s → s req.query = Except.ok v →
      (validate schemas controller resSend req).finalReq.validatedQuery =
        some v) ∧
    (∀ s v, schemas.params = some s → s req.params = Except.ok v →
      (validate schemas controller resSend
        req).finalReq.validatedParams = some v) := by
  obtain ⟨b, q, p⟩ := schemas
  simp only [validate, runQueryStep, runParamsStep, runController, runCatch,
    allOk, schemaOk, stepErr, augmentedReq, augmentSlot, parsedValue] at *
  repeat' split
  all_goals simp_all
  all_goals (repeat' constructor)
  all_goals intros
  all_goals subst_vars
  all_goals simp_all

/-- Witness for C7: passing body and query schemas put exactly the parsed
outputs 11 and 12 on the request the controller receives. -/
theorem success_invokes_handler_once_witness :
    allOk bodyQuerySchemas exReq = true ∧
    (validate bodyQuerySchemas okController resOk exReq).handlerCalls =
      [(validate bodyQuerySchemas okController resOk exReq).finalReq] ∧
    (validate bodyQuerySchemas okController resOk
      exReq).finalReq.validatedData = some 11 ∧
    (validate bodyQuerySchemas okController resOk
      exReq).finalReq.validatedQuery = some 12 := by
  have h := success_invokes_handler_once bodyQuerySchemas okController
    resOk exReq (by rfl)
  exact ⟨by rfl, h.1, h.2.2.1 okSchema 11 rfl (by rfl),
    h.2.2.2.1 okSchema 12 rfl (by rfl)⟩

/-- C8: when the body schema is absent or passes and the query schema
throws a ZodError, the dispatcher responds 400 with the query error's
joined messages, the controller is never invoked, and the parsed body
value (when a body schema is present) is already attached to the
request's body slot. -/
theorem query_failure_after_body (schemas : ZodSchemaShape V)
    (controller : Request V → Except JsError Unit)
    (resSend : Nat → ErrorEnvelope → Option JsError) (req : Request V)
    (s : V → Except JsError V) (errs : List ZodIssue)
    (hb : stepErr schemas.body req.body = none)
    (hq : schemas.query = some s)
    (hqe : s req.query = Except.error (JsError.zodError errs)) :
    (validate schemas controller resSend req).responseCalls =
      [(400, mkEnvelope errs)] ∧
    (validate schemas controller resSend req).handlerCalls = [] ∧
    (∀ sb v, schemas.body = some sb → sb req.body = Except.ok v →
      (validate schemas controller resSend req).finalReq.validatedData =
        some v) := by
  obtain ⟨b, q, p⟩ := schemas
  simp only [validate, runQueryStep, runParamsStep, runController, runCatch,
    stepErr] at *
  repeat' split
  all_goals simp_all
  all_goals intros
  all_goals subst_vars
  all_goals simp_all

/-- Witness for C8: a passing body schema and a failing query schema give
the 400 response with the query messages, no controller call, and the
parsed body value 11 already attached. -/
theorem query_failure_after_body_witness :
    stepErr bodyOkQueryFailSchemas.body exReq.body = none ∧
    (validate bodyOkQueryFailSchemas okController resOk
      exReq).responseCalls =
      [(400, { status := "error", message := "bad value, oops" })] ∧
    (validate bodyOkQueryFailSchemas okController resOk
      exReq).handlerCalls = [] ∧
    (validate bodyOkQueryFailSchemas okController resOk
      exReq).finalReq.validatedData = some 11 := by
  have h := query_failure_after_body bodyOkQueryFailSchemas okController
    resOk exReq failSchema [⟨"bad value"⟩, ⟨"oops"⟩] (by rfl) (by rfl)
    (by rfl)
  exact ⟨by rfl, h.1, h.2.1, h.2.2 okSchema 11 rfl (by rfl)⟩

/-- C9: with the empty schema set the middleware is a pass-through: the
controller is invoked exactly once with the request unchanged, no slot is
written, and when the controller completes normally the dispatcher makes
no response, no `next` call, and nothing escapes. -/
theorem empty_schemas_passthrough (schemas : ZodSchemaShape V)
    (controller : Request V → Except JsError Unit)
    (resSend : Nat → ErrorEnvelope → Option JsError) (req : Request V)
    (hb : schemas.body = none) (hq : schemas.query = none)
    (hp : schemas.params = none) :
    (validate schemas controller resSend req).handlerCalls = [req] ∧
    (validate schemas controller resSend req).finalReq = req ∧
    (validate schemas controller resSend req).slotWrites = [] ∧
    (validate schemas controller resSend req).parseCalls = [] ∧
    (controller req = Except.ok () →
      (validate schemas controller resSend req).responseCalls = [] ∧
      (validate schemas controller resSend req).nextCalls = [] ∧
      (validate schemas controller resSend req).escaped = none) := by
  obtain ⟨b, q, p⟩ := schemas
  simp only [validate, runQueryStep, runParamsStep, runController,
    runCatch] at *
  repeat' split
  all_goals simp_all

/-- Witness for C9: the empty schema set with a normally completing
controller invokes the controller once on the unchanged request and takes
no error path. -/
theorem empty_schemas_passthrough_witness :
    (validate emptySchemas okController resOk exReq).handlerCalls =
      [exReq] ∧
    (validate emptySchemas okController resOk exReq).finalReq = exReq ∧
    (validate emptySchemas okController resOk exReq).responseCalls =
      [] ∧
    (validate emptySchemas okController resOk exReq).nextCalls = [] := by
  have h := empty_schemas_passthrough emptySchemas okController resOk
    exReq rfl rfl rfl
  have h2 := h.2.2.2.2 (by rfl)
  exact ⟨h.1, h.2.1, h2.1, h2.2.1⟩

/-- C10: the dispatcher writes only the three `validated*` slots, each at
most once per invocation and only with the corresponding present schema's
successful parse output; every other field of the request is left
unchanged. -/
theorem frame_condition (schemas : ZodSchemaShape V)
    (controller : Request V → Except JsError Unit)
    (resSend : Nat → ErrorEnvelope → Option JsError) (req : Request V) :
    (validate schemas controller resSend req).finalReq.body = req.body ∧
    (validate schemas controller resSend req).finalReq.query =
      req.query ∧
    (validate schemas controller resSend req).finalReq.params =
      req.params ∧
    (validate schemas controller resSend req).finalReq.otherFields =
      req.otherFields ∧
    ((validate schemas controller resSend req).slotWrites.map
      Prod.fst).Nodup ∧
    (∀ v, (Slot.body, v) ∈
        (validate schemas controller resSend req).slotWrites →
      parsedValue schemas.body req.body = some v) ∧
    (∀ v, (Slot.query, v) ∈
        (validate schemas controller resSend req).slotWrites →
      parsedValue schemas.query req.query = some v) ∧
    (∀ v, (Slot.params, v) ∈
        (validate schemas controller resSend req).slotWrites →
      parsedValue schemas.params req.params = some v) := by
  obtain ⟨b, q, p⟩ := schemas
  simp only [validate, runQueryStep, runParamsStep, runController, runCatch,
    parsedValue] at *
  repeat' split
  all_goals simp_all

/-- Witness for C10: with passing body and query schemas the writes are
exactly one per slot, with the parsed outputs, and the other request
fields keep their values. -/
theorem frame_condition_witness :
    (validate bodyQuerySchemas okController resOk
      exReq).finalReq.otherFields = 7 ∧
    parsedValue bodyQuerySchemas.body exReq.body = some 11 := by
  have h := frame_condition bodyQuerySchemas okController resOk exReq
  refine ⟨h.2.2.2.1, h.2.2.2.2.2.1 11 ?_⟩
  show (Slot.body, 11) ∈
    (validate bodyQuerySchemas okController resOk exReq).slotWrites
  decide

end ExpressZodValidator
